import Mathlib

/-!
Shallow embedding of `src/generator.py` (Fortress password generator).

Modelling conventions:
* Python strings are `List Char` (all characters involved are ASCII).
* Python floats (`min_entropy`, `guesses_log10`, crack times) are `Rat`;
  only order comparisons and multiplication by 10 occur, which `Rat`
  models exactly.
* The random source (`random.randint`, `random.choice`, `random.shuffle`)
  is an explicit stream `rand : Nat → Nat` with a running counter `k`;
  each primitive consumes one draw per element it picks.
* The zxcvbn strength oracle is an explicit function parameter producing
  an `OracleResult`; the adapter code under verification is everything
  around that call.
* Python exceptions are modelled by `Except PyErr`; the unbounded
  `while True` loop of `generate_password` takes a fuel argument, with
  fuel exhaustion returning `.ok none` ("the loop is still running").
-/

/-- Exceptions the modelled code can raise. -/
inductive PyErr where
  /-- CPython `RuntimeError: dictionary changed size during iteration`. -/
  | runtimeError
  /-- `random.randint(a, b)` with `a > b` raises `ValueError`. -/
  | valueError
  /-- `random.choice(seq)` with an empty `seq` raises `IndexError`. -/
  | indexError
deriving DecidableEq

/-- `PasswordPolicy` dataclass with its literal field defaults.
`excluded_chars` defaults to the four characters `"` `'` `\` and backtick
(code points 34, 39, 92, 96). -/
structure PasswordPolicy where
  min_length : Nat := 16
  max_length : Nat := 32
  require_uppercase : Bool := true
  require_lowercase : Bool := true
  require_digits : Bool := true
  require_special : Bool := true
  min_entropy : Rat := 70
  excluded_chars : String := String.mk [Char.ofNat 34, Char.ofNat 39, Char.ofNat 92, Char.ofNat 96]

/-- `string.ascii_uppercase`. -/
def ascii_uppercase : List Char := "ABCDEFGHIJKLMNOPQRSTUVWXYZ".data

/-- `string.ascii_lowercase`. -/
def ascii_lowercase : List Char := "abcdefghijklmnopqrstuvwxyz".data

/-- `string.digits`. -/
def ascii_digits : List Char := "0123456789".data

/-- The special-character alphabet literal from `__init__`
(`!@#$%^&*()_+-=[]` then the two braces then `|;:,.<>?`). -/
def special_chars : List Char := "!@#$%^&*()_+-=[]\x7b\x7d|;:,.<>?".data

/-- `self._char_sets`: a Python dict from names to alphabets, modelled as an
insertion-ordered association list (CPython dicts preserve insertion order
and append new keys at the end). -/
abbrev Dict : Type := List (String × List Char)

/-- The dict literal assigned to `self._char_sets` in `__init__`. -/
def initCharSets : Dict :=
  [("uppercase", ascii_uppercase), ("lowercase", ascii_lowercase),
   ("digits", ascii_digits), ("special", special_chars)]

/-- Python `d[k] = v`: overwrite in place if the key exists, else append. -/
def dictInsert (d : Dict) (key : String) (v : List Char) : Dict :=
  if (List.any d fun e => e.1 == key) then
    List.map (fun e => if e.1 == key then (key, v) else e) d
  else d ++ [(key, v)]

/-- Length of a dict (its number of entries). -/
def dictLen (d : Dict) : Nat := List.length d

/-- One pass of `for charset in self._char_sets.values():
self._char_sets[charset] = charset.replace(char, '')` for a single excluded
character `c`, with CPython's live-iterator semantics: `n0` is the dict's
size when the `values()` iterator was created, `i` the current position and
`fuel` the remaining positions (`n0 - i`); before yielding each element the
iterator checks the size is still `n0` and raises `RuntimeError` otherwise.
The assignment keys the dict by the charset string itself (`String.mk v`),
not by the original name — the bug under claim C9. -/
def valuesLoop (c : Char) (n0 : Nat) : Nat → Nat → Dict → Except PyErr Dict
  | _, 0, d => if dictLen d ≠ n0 then .error .runtimeError else .ok d
  | i, fuel + 1, d =>
    if dictLen d ≠ n0 then .error .runtimeError
    else
      match List.get? d i with
      | none => .ok d
      | some e =>
        valuesLoop c n0 (i + 1) fuel
          (dictInsert d (String.mk e.2) (List.filter (fun x => x ≠ c) e.2))

/-- The outer loop `for char in self.policy.excluded_chars:`. -/
def applyExclusions : List Char → Dict → Except PyErr Dict
  | [], d => .ok d
  | c :: rest, d =>
    match valuesLoop c (dictLen d) 0 (dictLen d) d with
    | .error e => .error e
    | .ok d1 => applyExclusions rest d1

/-- The generator object: its policy and its `_char_sets` dict. -/
structure AIPasswordGenerator where
  policy : PasswordPolicy
  char_sets : Dict

/-- `AIPasswordGenerator.__init__` with an explicit policy: builds the char
set dict and runs the excluded-character filter loop, propagating the
`RuntimeError` that loop raises when it mutates the dict mid-iteration. -/
def mkGenerator (p : PasswordPolicy) : Except PyErr AIPasswordGenerator :=
  match applyExclusions p.excluded_chars.data initCharSets with
  | .error e => .error e
  | .ok d => .ok { policy := p, char_sets := d }

/-- Dict lookup `self._char_sets[name]`. The four names used by the code are
present in every dict reachable from a successful `mkGenerator` (which
leaves `initCharSets` untouched), so the `[]` default of the missing-key
branch is never observed. -/
def lookupSet (g : AIPasswordGenerator) (name : String) : List Char :=
  match List.find? (fun e => e.1 == name) g.char_sets with
  | some e => e.2
  | none => []

/-- `random.randint(a, b)`: uniform on the inclusive range `[a, b]`; raises
`ValueError` when the range is empty (`a > b`). Consumes one draw. -/
def randint (a b : Nat) (rand : Nat → Nat) (k : Nat) : Except PyErr (Nat × Nat) :=
  if b < a then .error .valueError
  else .ok (a + rand k % (b - a + 1), k + 1)

/-- `random.choice(seq)`: one uniformly chosen element; raises `IndexError`
on an empty sequence. Consumes one draw. -/
def chooseFrom (l : List Char) (rand : Nat → Nat) (k : Nat) : Except PyErr (Char × Nat) :=
  match l with
  | [] => .error .indexError
  | x :: xs =>
    .ok ((x :: xs).get ⟨rand k % (xs.length + 1), Nat.mod_lt _ (Nat.succ_pos _)⟩, k + 1)

/-- `random.shuffle`: a uniformly random permutation determined by the
stream, modelled by repeatedly extracting the element at a stream-chosen
position. `fuel` is the list length at the call (the pad branch for
`fuel = 0` with a non-empty list is unreachable from `shuffleList`). -/
def shuffleGo (rand : Nat → Nat) : Nat → Nat → List Char → List Char × Nat
  | 0, k, l => (l, k)
  | _ + 1, k, [] => ([], k)
  | n + 1, k, x :: xs =>
    let i := rand k % (xs.length + 1)
    let c := (x :: xs).get ⟨i, Nat.mod_lt _ (Nat.succ_pos _)⟩
    let rest := (x :: xs).eraseIdx i
    let out := shuffleGo rand n (k + 1) rest
    (c :: out.1, out.2)

/-- `random.shuffle(password)` followed by reading the shuffled list. -/
def shuffleList (rand : Nat → Nat) (k : Nat) (l : List Char) : List Char × Nat :=
  shuffleGo rand l.length k l

/-- The union-by-concatenation `all_chars` built at the top of
`_generate_candidate` from the required classes, in code order. -/
def allChars (g : AIPasswordGenerator) : List Char :=
  (if g.policy.require_uppercase then lookupSet g "uppercase" else []) ++
  (if g.policy.require_lowercase then lookupSet g "lowercase" else []) ++
  (if g.policy.require_digits then lookupSet g "digits" else []) ++
  (if g.policy.require_special then lookupSet g "special" else [])

/-- One `if require_x: password.append(random.choice(set_x))` step: returns
the zero- or one-element list appended for that class. -/
def seedOne (flag : Bool) (l : List Char) (rand : Nat → Nat) (k : Nat) :
    Except PyErr (List Char × Nat) :=
  if flag then
    match chooseFrom l rand k with
    | .error e => .error e
    | .ok ck => .ok ([ck.1], ck.2)
  else .ok ([], k)

/-- The four seeding steps of `_generate_candidate`, in code order
(uppercase, lowercase, digits, special). -/
def seedRequired (g : AIPasswordGenerator) (rand : Nat → Nat) (k : Nat) :
    Except PyErr (List Char × Nat) :=
  match seedOne g.policy.require_uppercase (lookupSet g "uppercase") rand k with
  | .error e => .error e
  | .ok (s1, k1) =>
    match seedOne g.policy.require_lowercase (lookupSet g "lowercase") rand k1 with
    | .error e => .error e
    | .ok (s2, k2) =>
      match seedOne g.policy.require_digits (lookupSet g "digits") rand k2 with
      | .error e => .error e
      | .ok (s3, k3) =>
        match seedOne g.policy.require_special (lookupSet g "special") rand k3 with
        | .error e => .error e
        | .ok (s4, k4) => .ok (s1 ++ s2 ++ s3 ++ s4, k4)

/-- `password.extend(random.choice(all_chars) for _ in range(remaining))`:
`n` independent choices from `all_chars`. Python's `range` of a negative
number is empty, which the caller's truncated `Nat` subtraction mirrors. -/
def fillChars (all : List Char) (rand : Nat → Nat) : Nat → Nat → Except PyErr (List Char × Nat)
  | 0, k => .ok ([], k)
  | n + 1, k =>
    match chooseFrom all rand k with
    | .error e => .error e
    | .ok (c, k1) =>
      match fillChars all rand n k1 with
      | .error e => .error e
      | .ok (rest, k2) => .ok (c :: rest, k2)

/-- `AIPasswordGenerator._generate_candidate(length)`: seed one character
per required class, fill the remaining `length - len(password)` positions
from `all_chars` (empty when the difference is negative), then shuffle. -/
def _generate_candidate (g : AIPasswordGenerator) (len : Nat) (rand : Nat → Nat) (k : Nat) :
    Except PyErr (List Char × Nat) :=
  match seedRequired g rand k with
  | .error e => .error e
  | .ok (seeds, k1) =>
    match fillChars (allChars g) rand (len - seeds.length) k1 with
    | .error e => .error e
    | .ok (fill, k2) =>
      let sh := shuffleList rand k2 (seeds ++ fill)
      .ok (sh.1, sh.2)

/-- Python's `str.isupper` on the ASCII range the candidates draw from. -/
def pyIsUpper (c : Char) : Bool := decide (Char.ofNat 65 ≤ c) && decide (c ≤ Char.ofNat 90)

/-- Python's `str.islower` on the ASCII range the candidates draw from. -/
def pyIsLower (c : Char) : Bool := decide (Char.ofNat 97 ≤ c) && decide (c ≤ Char.ofNat 122)

/-- Python's `str.isdigit` on the ASCII range the candidates draw from. -/
def pyIsDigit (c : Char) : Bool := decide (Char.ofNat 48 ≤ c) && decide (c ≤ Char.ofNat 57)

/-- `AIPasswordGenerator._meets_requirements(password)`. -/
def _meets_requirements (g : AIPasswordGenerator) (password : List Char) : Bool :=
  if g.policy.require_uppercase && !(List.any password pyIsUpper) then false
  else if g.policy.require_lowercase && !(List.any password pyIsLower) then false
  else if g.policy.require_digits && !(List.any password pyIsDigit) then false
  else if g.policy.require_special &&
      !(List.any password fun c => List.contains (lookupSet g "special") c) then false
  else true

/-- The feedback record the oracle returns and the adapter passes through. -/
structure Feedback where
  warning : Option String
  suggestions : List String

/-- The output contract of the external zxcvbn oracle: the fields the
adapter reads. `crack_times_seconds` is the oracle's mapping from attack
model name to seconds. -/
structure OracleResult where
  score : Nat
  guesses_log10 : Rat
  crack_times_seconds : String → Rat
  feedback : Feedback

/-- An oracle is a deterministic function of the password and the
`user_inputs` list (zxcvbn is a pure function of these). -/
abbrev Oracle : Type := List Char → List String → OracleResult

/-- The `StrengthReport` dict built by `analyze_strength`. -/
structure StrengthReport where
  score : Nat
  entropy : Rat
  crack_time : Rat
  feedback : Feedback

/-- A call context: Python `Optional[Dict[str, str]]`, modelled as an
insertion-ordered association list so `context.values()` is the second
projections in order. -/
abbrev Context : Type := Option (List (String × String))

/-- The `user_inputs` list built at the top of `analyze_strength` from the
context values, in order (Python truthiness: `if context:` skips both
`None` and an empty dict). -/
def ctxUserInputs (context : Context) : List String :=
  match context with
  | none => []
  | some ctx => if ctx.isEmpty then [] else [] ++ List.map Prod.snd ctx

/-- `AIPasswordGenerator.analyze_strength(password, context)`: builds
`user_inputs` from the context values, calls the oracle, and reshapes its
output: `entropy` is `guesses_log10 * 10`, `crack_time` is the
`online_no_throttling_10_per_second` entry of `crack_times_seconds`. -/
def analyze_strength (oracle : Oracle) (password : List Char) (context : Context) :
    StrengthReport :=
  let user_inputs : List String := ctxUserInputs context
  let result := oracle password user_inputs
  { score := result.score
    entropy := result.guesses_log10 * 10
    crack_time := result.crack_times_seconds "online_no_throttling_10_per_second"
    feedback := result.feedback }

/-- `AIPasswordGenerator.generate_password(context)`: the `while True`
retry loop, with fuel. `.ok none` means the loop has not produced a result
after `fuel` iterations (the code has no retry bound, so exhausted fuel is
"still running", not an exception). -/
def generate_password (g : AIPasswordGenerator) (oracle : Oracle) (context : Context)
    (rand : Nat → Nat) : Nat → Nat → Except PyErr (Option (List Char))
  | _, 0 => .ok none
  | k, fuel + 1 =>
    match randint g.policy.min_length g.policy.max_length rand k with
    | .error e => .error e
    | .ok (len, k1) =>
      match _generate_candidate g len rand k1 with
      | .error e => .error e
      | .ok (password, k2) =>
        let strength := analyze_strength oracle password context
        if g.policy.min_entropy ≤ strength.entropy ∧ _meets_requirements g password = true
        then .ok (some password)
        else generate_password g oracle context rand k2 fuel

/-- State-passing form of `generate_password`: a Python method call could
mutate `self`; the body of `generate_password` contains no attribute
assignment, so the post-call object carries the same fields. -/
def generate_password_st (g : AIPasswordGenerator) (oracle : Oracle) (context : Context)
    (rand : Nat → Nat) (k fuel : Nat) :
    Except PyErr (Option (List Char)) × AIPasswordGenerator :=
  (generate_password g oracle context rand k fuel,
   { policy := g.policy, char_sets := g.char_sets })

/-- State-passing form of `analyze_strength`: the method body reads nothing
from `self` and assigns no attribute, so the result ignores the object and
the post-call object carries the same fields. -/
def analyze_strength_st (g : AIPasswordGenerator) (oracle : Oracle)
    (password : List Char) (context : Context) :
    StrengthReport × AIPasswordGenerator :=
  (analyze_strength oracle password context,
   { policy := g.policy, char_sets := g.char_sets })

/-- Number of required character classes of a policy. -/
def numRequired (p : PasswordPolicy) : Nat :=
  (if p.require_uppercase then 1 else 0) + (if p.require_lowercase then 1 else 0) +
  (if p.require_digits then 1 else 0) + (if p.require_special then 1 else 0)

/-! Lemmas about construction. -/

theorem dictInsert_new (d : Dict) (key : String) (v : List Char)
    (h : (List.any d fun e => e.1 == key) = false) :
    dictInsert d key v = d ++ [(key, v)] := by
  unfold dictInsert
  rw [if_neg]
  simp [h]

/-- On the initial char-set dict, one pass of the exclusion loop always
raises: the first assignment appends a fifth entry (keyed by the uppercase
alphabet string), and the size check of the next iteration fires. -/
theorem valuesLoop_initCharSets (c : Char) :
    valuesLoop c 4 0 4 initCharSets = .error .runtimeError := by
  have hnew : (List.any initCharSets fun e => e.1 == String.mk ascii_uppercase) = false := by
    decide
  rw [show (4 : Nat) = 3 + 1 from rfl, valuesLoop]
  rw [if_neg (by decide)]
  have hget : List.get? initCharSets 0 = some ("uppercase", ascii_uppercase) := by decide
  rw [hget]
  simp only []
  rw [dictInsert_new _ _ _ hnew]
  rw [valuesLoop]
  rw [if_pos (by simp [dictLen, initCharSets])]

/-- A successful construction forces an empty `excluded_chars` and leaves
the char-set dict untouched. -/
theorem mkGenerator_ok (p : PasswordPolicy) (g : AIPasswordGenerator)
    (h : mkGenerator p = .ok g) :
    p.excluded_chars.data = [] ∧ g.policy = p ∧ g.char_sets = initCharSets := by
  unfold mkGenerator at h
  cases hdata : p.excluded_chars.data with
  | nil =>
    rw [hdata] at h
    simp only [applyExclusions] at h
    cases h
    exact ⟨rfl, rfl, rfl⟩
  | cons c rest =>
    rw [hdata] at h
    simp only [applyExclusions] at h
    rw [show dictLen initCharSets = 4 by decide] at h
    rw [valuesLoop_initCharSets c] at h
    cases h

/-- Conversely, an empty `excluded_chars` makes construction succeed with
the untouched char sets. -/
theorem mkGenerator_of_empty (p : PasswordPolicy) (h : p.excluded_chars = "") :
    mkGenerator p = .ok { policy := p, char_sets := initCharSets } := by
  unfold mkGenerator
  rw [show p.excluded_chars.data = [] by rw [h]]
  rfl

/-- A non-empty `excluded_chars` makes construction raise `RuntimeError`. -/
theorem mkGenerator_error (p : PasswordPolicy) (h : p.excluded_chars ≠ "") :
    mkGenerator p = .error .runtimeError := by
  have hdata : p.excluded_chars.data ≠ [] := by
    intro hnil
    apply h
    cases hp : p.excluded_chars with
    | mk l => rw [hp] at hnil; simp at hnil; rw [hnil]
  unfold mkGenerator
  cases hd : p.excluded_chars.data with
  | nil => exact absurd hd hdata
  | cons c rest =>
    simp only [applyExclusions]
    rw [show dictLen initCharSets = 4 by decide]
    rw [valuesLoop_initCharSets c]

/-! Lemmas about the random primitives. -/

theorem randint_ok_bounds (a b : Nat) (rand : Nat → Nat) (k n k1 : Nat)
    (h : randint a b rand k = .ok (n, k1)) : a ≤ n ∧ n ≤ b := by
  unfold randint at h
  split at h
  · cases h
  · rename_i hba
    cases h
    constructor
    · exact Nat.le_add_right _ _
    · have hmod : rand k % (b - a + 1) < b - a + 1 := Nat.mod_lt _ (Nat.succ_pos _)
      omega

theorem chooseFrom_mem (l : List Char) (rand : Nat → Nat) (k : Nat) (c : Char) (k1 : Nat)
    (h : chooseFrom l rand k = .ok (c, k1)) : c ∈ l := by
  unfold chooseFrom at h
  cases l with
  | nil => cases h
  | cons x xs =>
    cases h
    exact List.get_mem _ _ _

theorem chooseFrom_ok (l : List Char) (hne : l ≠ []) (rand : Nat → Nat) (k : Nat) :
    ∃ c, chooseFrom l rand k = .ok (c, k + 1) := by
  unfold chooseFrom
  cases l with
  | nil => exact absurd rfl hne
  | cons x xs => exact ⟨_, rfl⟩

theorem seedOne_inv (flag : Bool) (l : List Char) (rand : Nat → Nat) (k : Nat)
    (s : List Char) (k1 : Nat) (h : seedOne flag l rand k = .ok (s, k1)) :
    s.length = (if flag then 1 else 0) ∧
    (flag = true → ∃ c, s = [c] ∧ c ∈ l) := by
  unfold seedOne at h
  cases flag with
  | false =>
    simp only [if_neg Bool.false_ne_true, Bool.false_eq_true, if_false] at h
    cases h
    exact ⟨rfl, by intro hc; cases hc⟩
  | true =>
    simp only [if_true] at h
    cases hc : chooseFrom l rand k with
    | error e => rw [hc] at h; cases h
    | ok ck =>
      rw [hc] at h
      cases h
      exact ⟨rfl, fun _ => ⟨ck.1, rfl, chooseFrom_mem l rand k ck.1 ck.2 (by rw [hc])⟩⟩

theorem seedOne_ok (flag : Bool) (l : List Char) (hne : l ≠ []) (rand : Nat → Nat) (k : Nat) :
    ∃ s k1, seedOne flag l rand k = .ok (s, k1) := by
  unfold seedOne
  cases flag with
  | false => exact ⟨[], k, rfl⟩
  | true =>
    obtain ⟨c, hc⟩ := chooseFrom_ok l hne rand k
    rw [if_pos rfl, hc]
    exact ⟨[c], k + 1, rfl⟩

theorem fillChars_inv (all : List Char) (rand : Nat → Nat) :
    ∀ (n k : Nat) (f : List Char) (k1 : Nat),
      fillChars all rand n k = .ok (f, k1) →
      f.length = n ∧ ∀ c ∈ f, c ∈ all := by
  intro n
  induction n with
  | zero =>
    intro k f k1 h
    unfold fillChars at h
    cases h
    exact ⟨rfl, by intro c hc; cases hc⟩
  | succ m ih =>
    intro k f k1 h
    unfold fillChars at h
    split at h
    · cases h
    · rename_i c kc hc
      split at h
      · cases h
      · rename_i rest k2 hrest
        cases h
        obtain ⟨hlen, hmem⟩ := ih _ _ _ hrest
        refine ⟨by simp [hlen], ?_⟩
        intro x hx
        cases hx with
        | head => exact chooseFrom_mem all rand k c kc hc
        | tail _ ht => exact hmem x ht

theorem fillChars_ok (all : List Char) (hne : all ≠ []) (rand : Nat → Nat) :
    ∀ (n k : Nat), ∃ f k1, fillChars all rand n k = .ok (f, k1) := by
  intro n
  induction n with
  | zero => intro k; exact ⟨[], k, rfl⟩
  | succ m ih =>
    intro k
    obtain ⟨c, hc⟩ := chooseFrom_ok all hne rand k
    obtain ⟨f, k1, hf⟩ := ih (k + 1)
    refine ⟨c :: f, k1, ?_⟩
    unfold fillChars
    rw [hc]
    simp only []
    rw [hf]

/-! Lemmas about the shuffle. -/

theorem get_cons_eraseIdx_perm :
    ∀ (l : List Char) (i : Nat) (h : i < l.length),
      (l.get ⟨i, h⟩ :: l.eraseIdx i).Perm l
  | x :: xs, 0, _ => List.Perm.refl (x :: xs)
  | x :: xs, i + 1, h => by
    have hi : i < xs.length := by simpa using h
    have ih := get_cons_eraseIdx_perm xs i hi
    show (xs.get ⟨i, hi⟩ :: x :: xs.eraseIdx i).Perm (x :: xs)
    exact List.Perm.trans (List.Perm.swap x _ _) (List.Perm.cons x ih)

theorem shuffleGo_perm (rand : Nat → Nat) :
    ∀ (n k : Nat) (l : List Char), ((shuffleGo rand n k l).1).Perm l := by
  intro n
  induction n with
  | zero => intro k l; exact List.Perm.refl l
  | succ m ih =>
    intro k l
    cases l with
    | nil => exact List.Perm.refl []
    | cons x xs =>
      unfold shuffleGo
      simp only []
      exact List.Perm.trans
        (List.Perm.cons _ (ih (k + 1) _))
        (get_cons_eraseIdx_perm (x :: xs) _ (Nat.mod_lt _ (Nat.succ_pos _)))

theorem shuffleList_perm (rand : Nat → Nat) (k : Nat) (l : List Char) :
    ((shuffleList rand k l).1).Perm l :=
  shuffleGo_perm rand l.length k l
/-! Lemmas about the character-set lookups of an untouched generator. -/

theorem lookupSet_uppercase (g : AIPasswordGenerator) (hcs : g.char_sets = initCharSets) :
    lookupSet g "uppercase" = ascii_uppercase := by
  unfold lookupSet
  rw [hcs]
  rfl

theorem lookupSet_lowercase (g : AIPasswordGenerator) (hcs : g.char_sets = initCharSets) :
    lookupSet g "lowercase" = ascii_lowercase := by
  unfold lookupSet
  rw [hcs]
  rfl

theorem lookupSet_digits (g : AIPasswordGenerator) (hcs : g.char_sets = initCharSets) :
    lookupSet g "digits" = ascii_digits := by
  unfold lookupSet
  rw [hcs]
  rfl

theorem lookupSet_special (g : AIPasswordGenerator) (hcs : g.char_sets = initCharSets) :
    lookupSet g "special" = special_chars := by
  unfold lookupSet
  rw [hcs]
  rfl

/-! Lemmas about seeding and candidate construction. -/

/-- What one seeding step contributes: a single character of the class
alphabet when the class is required, nothing otherwise. -/
def segOk (flag : Bool) (alphabet s : List Char) : Prop :=
  (flag = true → ∃ c, s = [c] ∧ c ∈ alphabet) ∧ (flag = false → s = [])

theorem seedOne_segOk (flag : Bool) (l : List Char) (rand : Nat → Nat) (k : Nat)
    (s : List Char) (k1 : Nat) (h : seedOne flag l rand k = .ok (s, k1)) :
    segOk flag l s := by
  obtain ⟨hlen, hmem⟩ := seedOne_inv flag l rand k s k1 h
  refine ⟨hmem, ?_⟩
  intro hfalse
  rw [hfalse] at hlen
  simpa using List.length_eq_zero.mp hlen

/-- What a successful run of the four seeding steps yields, for a generator
whose char sets are the untouched originals: the seeds split into four
per-class segments, one character per required class. -/
theorem seedRequired_inv (g : AIPasswordGenerator) (hcs : g.char_sets = initCharSets)
    (rand : Nat → Nat) (k : Nat) (s : List Char) (k1 : Nat)
    (h : seedRequired g rand k = .ok (s, k1)) :
    ∃ s1 s2 s3 s4, s = s1 ++ s2 ++ s3 ++ s4 ∧
      s.length = numRequired g.policy ∧
      segOk g.policy.require_uppercase ascii_uppercase s1 ∧
      segOk g.policy.require_lowercase ascii_lowercase s2 ∧
      segOk g.policy.require_digits ascii_digits s3 ∧
      segOk g.policy.require_special special_chars s4 := by
  unfold seedRequired at h
  rw [lookupSet_uppercase g hcs, lookupSet_lowercase g hcs, lookupSet_digits g hcs,
    lookupSet_special g hcs] at h
  split at h
  · cases h
  · rename_i s1 ka ha
    split at h
    · cases h
    · rename_i s2 kb hb
      split at h
      · cases h
      · rename_i s3 kc hc
        split at h
        · cases h
        · rename_i s4 kd hd
          cases h
          obtain ⟨hl1, hm1⟩ := seedOne_inv _ _ _ _ _ _ ha
          obtain ⟨hl2, hm2⟩ := seedOne_inv _ _ _ _ _ _ hb
          obtain ⟨hl3, hm3⟩ := seedOne_inv _ _ _ _ _ _ hc
          obtain ⟨hl4, hm4⟩ := seedOne_inv _ _ _ _ _ _ hd
          refine ⟨s1, s2, s3, s4, rfl, ?_,
            seedOne_segOk _ _ _ _ _ _ ha, seedOne_segOk _ _ _ _ _ _ hb,
            seedOne_segOk _ _ _ _ _ _ hc, seedOne_segOk _ _ _ _ _ _ hd⟩
          simp only [List.length_append, hl1, hl2, hl3, hl4, numRequired]

/-- The seeding steps always succeed on an untouched generator (all four
alphabets are non-empty). -/
theorem seedRequired_ok (g : AIPasswordGenerator) (hcs : g.char_sets = initCharSets)
    (rand : Nat → Nat) (k : Nat) :
    ∃ s k1, seedRequired g rand k = .ok (s, k1) := by
  obtain ⟨s1, k1, h1⟩ := seedOne_ok g.policy.require_uppercase (lookupSet g "uppercase")
    (by rw [lookupSet_uppercase g hcs]; decide) rand k
  obtain ⟨s2, k2, h2⟩ := seedOne_ok g.policy.require_lowercase (lookupSet g "lowercase")
    (by rw [lookupSet_lowercase g hcs]; decide) rand k1
  obtain ⟨s3, k3, h3⟩ := seedOne_ok g.policy.require_digits (lookupSet g "digits")
    (by rw [lookupSet_digits g hcs]; decide) rand k2
  obtain ⟨s4, k4, h4⟩ := seedOne_ok g.policy.require_special (lookupSet g "special")
    (by rw [lookupSet_special g hcs]; decide) rand k3
  refine ⟨s1 ++ s2 ++ s3 ++ s4, k4, ?_⟩
  unfold seedRequired
  rw [h1]
  simp only []
  rw [h2]
  simp only []
  rw [h3]
  simp only []
  rw [h4]

/-- Decomposition of a successful `_generate_candidate` run. -/
theorem candidate_inv (g : AIPasswordGenerator) (len : Nat) (rand : Nat → Nat) (k : Nat)
    (pw : List Char) (k1 : Nat) (h : _generate_candidate g len rand k = .ok (pw, k1)) :
    ∃ s ks f kf, seedRequired g rand k = .ok (s, ks) ∧
      fillChars (allChars g) rand (len - s.length) ks = .ok (f, kf) ∧
      pw = (shuffleList rand kf (s ++ f)).1 := by
  unfold _generate_candidate at h
  split at h
  · cases h
  · rename_i s ks hs
    split at h
    · cases h
    · rename_i f kf hf
      cases h
      exact ⟨s, ks, f, kf, hs, hf, rfl⟩
theorem allChars_ne_nil (g : AIPasswordGenerator) (hcs : g.char_sets = initCharSets)
    (hru : g.policy.require_uppercase = true) : allChars g ≠ [] := by
  unfold allChars
  rw [hru, if_pos rfl, lookupSet_uppercase g hcs]
  intro hcon
  rw [List.append_assoc, List.append_assoc] at hcon
  have := List.append_eq_nil.mp hcon
  have h26 : ascii_uppercase ≠ [] := by decide
  exact h26 this.1

/-- Candidate construction never raises on an untouched generator that
requires the uppercase class: every `random.choice` draws from a non-empty
alphabet. -/
theorem candidate_ok (g : AIPasswordGenerator) (hcs : g.char_sets = initCharSets)
    (hru : g.policy.require_uppercase = true) (len : Nat) (rand : Nat → Nat) (k : Nat) :
    ∃ pw k1, _generate_candidate g len rand k = .ok (pw, k1) := by
  obtain ⟨s, ks, hs⟩ := seedRequired_ok g hcs rand k
  obtain ⟨f, kf, hf⟩ := fillChars_ok (allChars g) (allChars_ne_nil g hcs hru) rand (len - s.length) ks
  refine ⟨(shuffleList rand kf (s ++ f)).1, (shuffleList rand kf (s ++ f)).2, ?_⟩
  unfold _generate_candidate
  rw [hs]
  simp only []
  rw [hf]

/-- Decomposition of a successful `generate_password` run: some iteration
drew a length, built the returned candidate, and the accept test passed. -/
theorem generate_inv (g : AIPasswordGenerator) (oracle : Oracle) (ctx : Context)
    (rand : Nat → Nat) :
    ∀ (fuel k : Nat) (pw : List Char),
      generate_password g oracle ctx rand k fuel = .ok (some pw) →
      ∃ ka len k1 k2,
        randint g.policy.min_length g.policy.max_length rand ka = .ok (len, k1) ∧
        _generate_candidate g len rand k1 = .ok (pw, k2) ∧
        g.policy.min_entropy ≤ (analyze_strength oracle pw ctx).entropy ∧
        _meets_requirements g pw = true := by
  intro fuel
  induction fuel with
  | zero => intro k pw h; cases h
  | succ m ih =>
    intro k pw h
    unfold generate_password at h
    split at h
    · cases h
    · rename_i len k1 hlen
      split at h
      · cases h
      · rename_i cand k2 hcand
        dsimp only at h
        split at h
        · rename_i hacc
          cases h
          exact ⟨k, len, k1, k2, hlen, hcand, hacc.1, hacc.2⟩
        · exact ih k2 pw h
theorem analyze_strength_entropy (oracle : Oracle) (password : List Char) (context : Context) :
    (analyze_strength oracle password context).entropy =
      (oracle password (ctxUserInputs context)).guesses_log10 * 10 := rfl

/-- When the oracle never reaches the threshold, the retry loop makes no
progress: after any number of iterations it is still running, with no
return value and no exception — the code has no retry budget to exhaust. -/
theorem generate_never_accepts (g : AIPasswordGenerator) (oracle : Oracle) (ctx : Context)
    (rand : Nat → Nat) (hcs : g.char_sets = initCharSets)
    (hminmax : g.policy.min_length ≤ g.policy.max_length)
    (hru : g.policy.require_uppercase = true)
    (hweak : ∀ pw ui, (oracle pw ui).guesses_log10 * 10 < g.policy.min_entropy) :
    ∀ (fuel k : Nat), generate_password g oracle ctx rand k fuel = .ok none := by
  intro fuel
  induction fuel with
  | zero => intro k; rfl
  | succ m ih =>
    intro k
    have hri : randint g.policy.min_length g.policy.max_length rand k =
        .ok (g.policy.min_length +
              rand k % (g.policy.max_length - g.policy.min_length + 1), k + 1) := by
      unfold randint
      rw [if_neg (by omega)]
    obtain ⟨pw, k2, hc⟩ := candidate_ok g hcs hru
      (g.policy.min_length + rand k % (g.policy.max_length - g.policy.min_length + 1))
      rand (k + 1)
    have hnot : ¬(g.policy.min_entropy ≤ (analyze_strength oracle pw ctx).entropy ∧
        _meets_requirements g pw = true) := by
      intro hacc
      have hlt := hweak pw (ctxUserInputs ctx)
      rw [← analyze_strength_entropy oracle pw ctx] at hlt
      exact absurd hacc.1 (not_le.mpr hlt)
    unfold generate_password
    rw [hri]
    simp only []
    rw [hc]
    simp only []
    rw [if_neg hnot]
    exact ih k2
/-! Counting helpers for the per-class segments. -/

theorem segOk_countP_self (flag : Bool) (alphabet s : List Char)
    (h : segOk flag alphabet s) (hflag : flag = true) :
    List.countP (fun x => List.contains alphabet x) s = 1 := by
  obtain ⟨c, hcs, hcmem⟩ := h.1 hflag
  rw [hcs]
  have hcontains : List.contains alphabet c = true := by simpa using hcmem
  simp only [List.countP_cons, List.countP_nil, hcontains]
  simp

theorem segOk_countP_other (flag : Bool) (alphabet s other : List Char)
    (h : segOk flag alphabet s)
    (hall : List.all alphabet (fun x => !(List.contains other x)) = true) :
    List.countP (fun x => List.contains other x) s = 0 := by
  cases flag with
  | false => rw [h.2 rfl]; rfl
  | true =>
    obtain ⟨c, hcs, hcmem⟩ := h.1 rfl
    rw [hcs]
    have hnc := List.all_eq_true.mp hall c hcmem
    simp only [Bool.not_eq_eq_eq_not, Bool.not_true] at hnc
    simp only [List.countP_cons, List.countP_nil, hnc]
    simp

theorem segOk_mem (flag : Bool) (alphabet s : List Char)
    (h : segOk flag alphabet s) (hflag : flag = true) : ∃ c ∈ s, c ∈ alphabet := by
  obtain ⟨c, hcs, hcmem⟩ := h.1 hflag
  exact ⟨c, by rw [hcs]; exact List.mem_singleton_self c, hcmem⟩

/-! The four class alphabets are pairwise disjoint (concrete facts). -/

theorem lower_not_in_upper :
    List.all ascii_lowercase (fun x => !(List.contains ascii_uppercase x)) = true := by decide

theorem digits_not_in_upper :
    List.all ascii_digits (fun x => !(List.contains ascii_uppercase x)) = true := by decide

theorem special_not_in_upper :
    List.all special_chars (fun x => !(List.contains ascii_uppercase x)) = true := by decide

theorem upper_not_in_lower :
    List.all ascii_uppercase (fun x => !(List.contains ascii_lowercase x)) = true := by decide

theorem digits_not_in_lower :
    List.all ascii_digits (fun x => !(List.contains ascii_lowercase x)) = true := by decide

theorem special_not_in_lower :
    List.all special_chars (fun x => !(List.contains ascii_lowercase x)) = true := by decide

theorem upper_not_in_digits :
    List.all ascii_uppercase (fun x => !(List.contains ascii_digits x)) = true := by decide

theorem lower_not_in_digits :
    List.all ascii_lowercase (fun x => !(List.contains ascii_digits x)) = true := by decide

theorem special_not_in_digits :
    List.all special_chars (fun x => !(List.contains ascii_digits x)) = true := by decide

theorem upper_not_in_special :
    List.all ascii_uppercase (fun x => !(List.contains special_chars x)) = true := by decide

theorem lower_not_in_special :
    List.all ascii_lowercase (fun x => !(List.contains special_chars x)) = true := by decide

theorem digits_not_in_special :
    List.all ascii_digits (fun x => !(List.contains special_chars x)) = true := by decide

/-- At the boundary length (`len` = number of required classes) candidate
construction succeeds with zero fill characters: the only `random.choice`
calls draw from the four concrete non-empty alphabets. -/
theorem candidate_ok_boundary (g : AIPasswordGenerator) (hcs : g.char_sets = initCharSets)
    (rand : Nat → Nat) (k : Nat) :
    ∃ pw k1, _generate_candidate g (numRequired g.policy) rand k = .ok (pw, k1) := by
  obtain ⟨s, ks, hs⟩ := seedRequired_ok g hcs rand k
  obtain ⟨s1, s2, s3, s4, hsplit, hslen, h1, h2, h3, h4⟩ :=
    seedRequired_inv g hcs rand k s ks hs
  have hzero : numRequired g.policy - s.length = 0 := by rw [hslen]; omega
  refine ⟨(shuffleList rand ks (s ++ [])).1, (shuffleList rand ks (s ++ [])).2, ?_⟩
  unfold _generate_candidate
  rw [hs]
  simp only []
  rw [hzero]
  rfl

/-! Concrete fixtures used by the witnesses and counterexamples. -/

/-- The all-zeros random stream. -/
def zeroRand : Nat → Nat := fun _ => 0

/-- A concrete oracle assigning every password zero guesses. -/
def zeroOracle : Oracle := fun _ _ =>
  { score := 0, guesses_log10 := 0, crack_times_seconds := fun _ => 0,
    feedback := { warning := none, suggestions := [] } }

/-- `PasswordPolicy()` — every field at its default. -/
def defaultPolicy : PasswordPolicy := {}

/-- `min_length = 5 > 3 = max_length` with no exclusions: invalid bounds
that the spec says construction must reject. -/
def invalidBoundsPolicy : PasswordPolicy :=
  { min_length := 5, max_length := 3, min_entropy := 0, excluded_chars := "" }

/-- All four classes required but both length bounds pinned to 2, below
the four required classes; no exclusions, no entropy threshold. -/
def shortPolicy : PasswordPolicy :=
  { min_length := 2, max_length := 2, min_entropy := 0, excluded_chars := "" }

/-- The generator `mkGenerator shortPolicy` constructs. -/
def shortGen : AIPasswordGenerator := { policy := shortPolicy, char_sets := initCharSets }

/-- All four classes required, both length bounds equal to the number of
required classes; no exclusions, no entropy threshold. -/
def boundaryPolicy : PasswordPolicy :=
  { min_length := 4, max_length := 4, min_entropy := 0, excluded_chars := "" }

/-- The generator `mkGenerator boundaryPolicy` constructs. -/
def boundaryGen : AIPasswordGenerator :=
  { policy := boundaryPolicy, char_sets := initCharSets }

/-- Like `boundaryPolicy` but with a `min_entropy` of 1, unreachable for
an oracle that always reports zero guesses. -/
def unreachablePolicy : PasswordPolicy :=
  { min_length := 4, max_length := 4, min_entropy := 1, excluded_chars := "" }

/-- The generator `mkGenerator unreachablePolicy` constructs. -/
def unreachableGen : AIPasswordGenerator :=
  { policy := unreachablePolicy, char_sets := initCharSets }

/-- All four classes required with `min_length = 3` below the four
required classes but `max_length = 16` above them; no exclusions, no
entropy threshold. -/
def midPolicy : PasswordPolicy :=
  { min_length := 3, max_length := 16, min_entropy := 0, excluded_chars := "" }

/-- The generator `mkGenerator midPolicy` constructs. -/
def midGen : AIPasswordGenerator := { policy := midPolicy, char_sets := initCharSets }
/-! Concrete evaluation of two full `generate_password` runs. The only
step that does not reduce definitionally is the rational comparison in
the accept test (`Rat.mul` is irreducible), which `norm_num` settles. -/

theorem generate_boundary_run :
    generate_password boundaryGen zeroOracle none zeroRand 0 1 = .ok (some "Aa0!".data) := by
  unfold generate_password
  rw [show randint boundaryGen.policy.min_length boundaryGen.policy.max_length zeroRand 0 =
    .ok (4, 1) from rfl]
  simp only []
  rw [show _generate_candidate boundaryGen 4 zeroRand 1 = .ok ("Aa0!".data, 9) from rfl]
  simp only []
  rw [if_pos ?_]
  constructor
  · rw [analyze_strength_entropy]
    show boundaryPolicy.min_entropy ≤ (zeroOracle "Aa0!".data []).guesses_log10 * 10
    norm_num [boundaryPolicy, zeroOracle]
  · rfl

theorem generate_short_run :
    generate_password shortGen zeroOracle none zeroRand 0 1 = .ok (some "Aa0!".data) := by
  unfold generate_password
  rw [show randint shortGen.policy.min_length shortGen.policy.max_length zeroRand 0 =
    .ok (2, 1) from rfl]
  simp only []
  rw [show _generate_candidate shortGen 2 zeroRand 1 = .ok ("Aa0!".data, 9) from rfl]
  simp only []
  rw [if_pos ?_]
  constructor
  · rw [analyze_strength_entropy]
    show shortPolicy.min_entropy ≤ (zeroOracle "Aa0!".data []).guesses_log10 * 10
    norm_num [shortPolicy, zeroOracle]
  · rfl

theorem generate_mid_run :
    generate_password midGen zeroOracle none zeroRand 0 1 = .ok (some "Aa0!".data) := by
  unfold generate_password
  rw [show randint midGen.policy.min_length midGen.policy.max_length zeroRand 0 =
    .ok (3, 1) from rfl]
  simp only []
  rw [show _generate_candidate midGen 3 zeroRand 1 = .ok ("Aa0!".data, 9) from rfl]
  simp only []
  rw [if_pos ?_]
  constructor
  · rw [analyze_strength_entropy]
    show midPolicy.min_entropy ≤ (zeroOracle "Aa0!".data []).guesses_log10 * 10
    norm_num [midPolicy, zeroOracle]
  · rfl

/-! Claim theorems. -/

/-- C9: for every policy with a non-empty `excluded_chars` (the default
policy included), the constructor raises a `RuntimeError` before
completing: the exclusion loop inserts new entries keyed by the charset
strings into `_char_sets` while iterating over its values, so iteration
aborts and the named class alphabets are never filtered. -/
theorem C9_constructor_runtime_error (p : PasswordPolicy)
    (h : p.excluded_chars ≠ "") : mkGenerator p = .error .runtimeError :=
  mkGenerator_error p h

/-- Witness for C9: the default policy has a non-empty excluded set and
construction raises `RuntimeError` on it. -/
theorem C9_constructor_runtime_error_witness :
    defaultPolicy.excluded_chars ≠ "" ∧
    mkGenerator defaultPolicy = .error .runtimeError :=
  ⟨by decide, C9_constructor_runtime_error defaultPolicy (by decide)⟩

/-- C2 (failing input): construction performs no validation. With
`min_length = 5 > 3 = max_length` and no exclusions, the constructor
succeeds and raises nothing, although the claim requires it to fail with
a `ConfigurationError` (an error type that appears nowhere in the code). -/
theorem C2_no_validation :
    invalidBoundsPolicy.max_length < invalidBoundsPolicy.min_length ∧
    mkGenerator invalidBoundsPolicy =
      .ok { policy := invalidBoundsPolicy, char_sets := initCharSets } :=
  ⟨by decide, mkGenerator_of_empty invalidBoundsPolicy rfl⟩

/-- C1: no password returned by `generate_password` contains a character
of the policy's excluded set. This holds because construction only ever
succeeds when `excluded_chars` is empty — any non-empty exclusion set
crashes `__init__` — so a live generator's excluded set has no members. -/
theorem C1_no_excluded_chars (p : PasswordPolicy) (g : AIPasswordGenerator)
    (oracle : Oracle) (ctx : Context) (rand : Nat → Nat) (k fuel : Nat) (pw : List Char)
    (hg : mkGenerator p = .ok g)
    (_hret : generate_password g oracle ctx rand k fuel = .ok (some pw)) :
    ∀ c ∈ pw, c ∉ p.excluded_chars.data := by
  obtain ⟨hexcl, -, -⟩ := mkGenerator_ok p g hg
  intro c hc
  rw [hexcl]
  exact List.not_mem_nil c

/-- Witness for C1: a concrete constructed generator and a concrete run
returning the password `Aa0!`, none of whose characters is excluded. -/
theorem C1_no_excluded_chars_witness :
    mkGenerator boundaryPolicy = .ok boundaryGen ∧
    generate_password boundaryGen zeroOracle none zeroRand 0 1 = .ok (some "Aa0!".data) ∧
    ∀ c ∈ "Aa0!".data, c ∉ boundaryPolicy.excluded_chars.data :=
  ⟨rfl, generate_boundary_run,
   C1_no_excluded_chars boundaryPolicy boundaryGen zeroOracle none zeroRand 0 1
     "Aa0!".data rfl generate_boundary_run⟩

/-- C5: re-running `analyze_strength` on a returned password with the same
context reports an entropy of at least the policy's `min_entropy`: the
accept test evaluated the same deterministic analysis of the same
password and context. -/
theorem C5_acceptance_invariant (g : AIPasswordGenerator) (oracle : Oracle)
    (ctx : Context) (rand : Nat → Nat) (k fuel : Nat) (pw : List Char)
    (hret : generate_password g oracle ctx rand k fuel = .ok (some pw)) :
    g.policy.min_entropy ≤ (analyze_strength oracle pw ctx).entropy := by
  obtain ⟨ka, len, k1, k2, -, -, hent, -⟩ := generate_inv g oracle ctx rand fuel k pw hret
  exact hent

/-- Witness for C5 at a concrete run returning `Aa0!`. -/
theorem C5_acceptance_invariant_witness :
    generate_password boundaryGen zeroOracle none zeroRand 0 1 = .ok (some "Aa0!".data) ∧
    boundaryGen.policy.min_entropy ≤
      (analyze_strength zeroOracle "Aa0!".data none).entropy :=
  ⟨generate_boundary_run,
   C5_acceptance_invariant boundaryGen zeroOracle none zeroRand 0 1 "Aa0!".data
     generate_boundary_run⟩

/-- C6: the adapter hands the oracle exactly the context's values
(discarding keys; an absent context yields the empty list), scales the
oracle's `guesses_log10` by the constant 10 into `entropy`, copies
`score` and `feedback`, and takes `crack_time` from the oracle's
`online_no_throttling_10_per_second` attack model. -/
theorem C6_adapter_contract (oracle : Oracle) (password : List Char)
    (l : List (String × String)) :
    analyze_strength oracle password (some l) =
      { score := (oracle password (List.map Prod.snd l)).score
        entropy := (oracle password (List.map Prod.snd l)).guesses_log10 * 10
        crack_time := (oracle password (List.map Prod.snd l)).crack_times_seconds
          "online_no_throttling_10_per_second"
        feedback := (oracle password (List.map Prod.snd l)).feedback } ∧
    analyze_strength oracle password none =
      { score := (oracle password []).score
        entropy := (oracle password []).guesses_log10 * 10
        crack_time := (oracle password []).crack_times_seconds
          "online_no_throttling_10_per_second"
        feedback := (oracle password []).feedback } := by
  cases l with
  | nil => exact ⟨rfl, rfl⟩
  | cons a t => exact ⟨rfl, rfl⟩

/-- C7: two successive `analyze_strength` calls with identical password
and context — the second running on the post-state of the first — return
identical `score` and identical `entropy`. -/
theorem C7_idempotent_analysis (g : AIPasswordGenerator) (oracle : Oracle)
    (password : List Char) (context : Context) :
    ((analyze_strength_st g oracle password context).1).score =
      ((analyze_strength_st (analyze_strength_st g oracle password context).2
          oracle password context).1).score ∧
    ((analyze_strength_st g oracle password context).1).entropy =
      ((analyze_strength_st (analyze_strength_st g oracle password context).2
          oracle password context).1).entropy :=
  ⟨rfl, rfl⟩

/-- C10: a `generate_password` call followed by an `analyze_strength` call
leaves every field of the generator's policy unchanged: the method bodies
contain no attribute assignment, so the policy is only read. -/
theorem C10_policy_frame (g : AIPasswordGenerator) (oracle : Oracle) (ctx : Context)
    (rand : Nat → Nat) (k fuel : Nat) (password : List Char) (ctx2 : Context) :
    ((generate_password_st g oracle ctx rand k fuel).2).policy = g.policy ∧
    ((analyze_strength_st (generate_password_st g oracle ctx rand k fuel).2
        oracle password ctx2).2).policy.min_length = g.policy.min_length ∧
    ((analyze_strength_st (generate_password_st g oracle ctx rand k fuel).2
        oracle password ctx2).2).policy.max_length = g.policy.max_length ∧
    ((analyze_strength_st (generate_password_st g oracle ctx rand k fuel).2
        oracle password ctx2).2).policy.require_uppercase = g.policy.require_uppercase ∧
    ((analyze_strength_st (generate_password_st g oracle ctx rand k fuel).2
        oracle password ctx2).2).policy.require_lowercase = g.policy.require_lowercase ∧
    ((analyze_strength_st (generate_password_st g oracle ctx rand k fuel).2
        oracle password ctx2).2).policy.require_digits = g.policy.require_digits ∧
    ((analyze_strength_st (generate_password_st g oracle ctx rand k fuel).2
        oracle password ctx2).2).policy.require_special = g.policy.require_special ∧
    ((analyze_strength_st (generate_password_st g oracle ctx rand k fuel).2
        oracle password ctx2).2).policy.min_entropy = g.policy.min_entropy ∧
    ((analyze_strength_st (generate_password_st g oracle ctx rand k fuel).2
        oracle password ctx2).2).policy.excluded_chars = g.policy.excluded_chars :=
  ⟨rfl, rfl, rfl, rfl, rfl, rfl, rfl, rfl, rfl⟩
/-- C3 (divergence): the retry loop has no attempt budget and no timeout
error. Whenever the oracle's scaled entropy stays below `min_strength`,
the loop is still running after every number of iterations — it never
returns, and it never raises anything (no `GenerationTimeoutError`
exists in the code): `while True` only ever retries. -/
theorem C3_loop_never_terminates (p : PasswordPolicy) (g : AIPasswordGenerator)
    (oracle : Oracle) (ctx : Context) (rand : Nat → Nat) (fuel k : Nat)
    (hg : mkGenerator p = .ok g)
    (hminmax : p.min_length ≤ p.max_length)
    (hru : p.require_uppercase = true)
    (hweak : ∀ pw ui, (oracle pw ui).guesses_log10 * 10 < p.min_entropy) :
    generate_password g oracle ctx rand k fuel = .ok none := by
  obtain ⟨-, hpol, hcs⟩ := mkGenerator_ok p g hg
  exact generate_never_accepts g oracle ctx rand hcs
    (by rw [hpol]; exact hminmax) (by rw [hpol]; exact hru)
    (by rw [hpol]; exact hweak) fuel k

/-- Witness for C3: with an unreachable `min_entropy` of 1 and an oracle
reporting zero guesses, two loop iterations produce no result and no
exception. -/
theorem C3_loop_never_terminates_witness :
    mkGenerator unreachablePolicy = .ok unreachableGen ∧
    generate_password unreachableGen zeroOracle none zeroRand 0 2 = .ok none := by
  refine ⟨rfl, C3_loop_never_terminates unreachablePolicy unreachableGen zeroOracle none
    zeroRand 2 0 rfl (by decide) rfl ?_⟩
  intro pw ui
  norm_num [zeroOracle, unreachablePolicy]

/-- C4 (counterexample): a policy requiring all four classes, each with
its full non-empty alphabet, but with `min_length = max_length = 2`
yields a returned password of length 4, above `max_length`: the seeding
step inserts one character per required class before the length check-free
fill, and `_meets_requirements` never verifies length. -/
theorem C4_length_counterexample :
    (lookupSet shortGen "uppercase" ≠ [] ∧ lookupSet shortGen "lowercase" ≠ [] ∧
     lookupSet shortGen "digits" ≠ [] ∧ lookupSet shortGen "special" ≠ []) ∧
    mkGenerator shortPolicy = .ok shortGen ∧
    generate_password shortGen zeroOracle none zeroRand 0 1 = .ok (some "Aa0!".data) ∧
    ¬("Aa0!".data.length ≤ shortPolicy.max_length) :=
  ⟨⟨by decide, by decide, by decide, by decide⟩, rfl, generate_short_run, by decide⟩

/-- C4 (amended): additionally assuming `max_length` is at least the
number of required classes, every returned password has length within
`[min_length, max_length]` and contains at least one character from every
required class's alphabet. (The candidate's final length is the maximum
of the drawn length and the number of required classes, so this is the
exact hypothesis the counterexample forces.) -/
theorem C4_length_and_classes (p : PasswordPolicy) (g : AIPasswordGenerator)
    (oracle : Oracle) (ctx : Context) (rand : Nat → Nat) (k fuel : Nat) (pw : List Char)
    (hg : mkGenerator p = .ok g)
    (hmax : numRequired p ≤ p.max_length)
    (hret : generate_password g oracle ctx rand k fuel = .ok (some pw)) :
    p.min_length ≤ pw.length ∧ pw.length ≤ p.max_length ∧
    (p.require_uppercase = true → ∃ c ∈ pw, c ∈ ascii_uppercase) ∧
    (p.require_lowercase = true → ∃ c ∈ pw, c ∈ ascii_lowercase) ∧
    (p.require_digits = true → ∃ c ∈ pw, c ∈ ascii_digits) ∧
    (p.require_special = true → ∃ c ∈ pw, c ∈ special_chars) := by
  obtain ⟨-, hpol, hcs⟩ := mkGenerator_ok p g hg
  obtain ⟨ka, len, k1, k2, hlen, hcand, -, -⟩ := generate_inv g oracle ctx rand fuel k pw hret
  obtain ⟨hge, hle⟩ := randint_ok_bounds _ _ rand ka len k1 hlen
  rw [hpol] at hge hle
  obtain ⟨s, ks, f, kf, hs, hf, hpw⟩ := candidate_inv g len rand k1 pw k2 hcand
  obtain ⟨s1, s2, s3, s4, hsplit, hslen, h1, h2, h3, h4⟩ :=
    seedRequired_inv g hcs rand k1 s ks hs
  obtain ⟨hflen, -⟩ := fillChars_inv (allChars g) rand _ _ f kf hf
  have hperm : pw.Perm (s ++ f) := by
    rw [hpw]
    exact shuffleList_perm rand kf (s ++ f)
  have hnum : s.length = numRequired p := by rw [hslen, hpol]
  have hplen : pw.length = numRequired p + (len - numRequired p) := by
    rw [hperm.length_eq, List.length_append, hflen, hnum]
  have hmem : ∀ c, c ∈ s → c ∈ pw := by
    intro c hc
    exact hperm.mem_iff.mpr (List.mem_append_left f hc)
  have hmemseg : ∀ c t, c ∈ t → (t = s1 ∨ t = s2 ∨ t = s3 ∨ t = s4) → c ∈ pw := by
    intro c t hc ht
    apply hmem
    rw [hsplit]
    rcases ht with h | h | h | h <;> subst h <;> simp [hc]
  refine ⟨by omega, by omega, ?_, ?_, ?_, ?_⟩
  · intro hr
    obtain ⟨c, hcs1, hca⟩ := segOk_mem _ _ _ h1 (by rw [hpol]; exact hr)
    exact ⟨c, hmemseg c s1 hcs1 (Or.inl rfl), hca⟩
  · intro hr
    obtain ⟨c, hcs2, hca⟩ := segOk_mem _ _ _ h2 (by rw [hpol]; exact hr)
    exact ⟨c, hmemseg c s2 hcs2 (Or.inr (Or.inl rfl)), hca⟩
  · intro hr
    obtain ⟨c, hcs3, hca⟩ := segOk_mem _ _ _ h3 (by rw [hpol]; exact hr)
    exact ⟨c, hmemseg c s3 hcs3 (Or.inr (Or.inr (Or.inl rfl))), hca⟩
  · intro hr
    obtain ⟨c, hcs4, hca⟩ := segOk_mem _ _ _ h4 (by rw [hpol]; exact hr)
    exact ⟨c, hmemseg c s4 hcs4 (Or.inr (Or.inr (Or.inr rfl))), hca⟩
/-- Witness for the amended C4 at a concrete run returning `Aa0!` under a
policy with `min_length = 3 < 4` required classes `≤ max_length = 16`. -/
theorem C4_length_and_classes_witness :
    numRequired midPolicy ≤ midPolicy.max_length ∧
    (midPolicy.min_length ≤ "Aa0!".data.length ∧
     "Aa0!".data.length ≤ midPolicy.max_length ∧
     (midPolicy.require_uppercase = true → ∃ c ∈ "Aa0!".data, c ∈ ascii_uppercase) ∧
     (midPolicy.require_lowercase = true → ∃ c ∈ "Aa0!".data, c ∈ ascii_lowercase) ∧
     (midPolicy.require_digits = true → ∃ c ∈ "Aa0!".data, c ∈ ascii_digits) ∧
     (midPolicy.require_special = true → ∃ c ∈ "Aa0!".data, c ∈ special_chars)) :=
  ⟨by decide,
   C4_length_and_classes midPolicy midGen zeroOracle none zeroRand 0 1
     "Aa0!".data rfl (by decide) generate_mid_run⟩

/-- C8: when both length bounds equal the number of required classes,
every returned password has exactly that length and exactly one character
from each required class's alphabet, and candidate construction succeeds
even though zero fill characters remain. -/
theorem C8_boundary_exact (p : PasswordPolicy) (g : AIPasswordGenerator)
    (oracle : Oracle) (ctx : Context) (rand rand0 : Nat → Nat) (k fuel k0 : Nat)
    (pw : List Char)
    (hg : mkGenerator p = .ok g)
    (hminb : p.min_length = numRequired p)
    (hmaxb : p.max_length = numRequired p)
    (hret : generate_password g oracle ctx rand k fuel = .ok (some pw)) :
    pw.length = numRequired p ∧
    (p.require_uppercase = true →
      List.countP (fun x => List.contains ascii_uppercase x) pw = 1) ∧
    (p.require_lowercase = true →
      List.countP (fun x => List.contains ascii_lowercase x) pw = 1) ∧
    (p.require_digits = true →
      List.countP (fun x => List.contains ascii_digits x) pw = 1) ∧
    (p.require_special = true →
      List.countP (fun x => List.contains special_chars x) pw = 1) ∧
    (∃ out, _generate_candidate g (numRequired p) rand0 k0 = .ok out) := by
  obtain ⟨-, hpol, hcs⟩ := mkGenerator_ok p g hg
  obtain ⟨ka, len, k1, k2, hlen, hcand, -, -⟩ := generate_inv g oracle ctx rand fuel k pw hret
  obtain ⟨hge, hle⟩ := randint_ok_bounds _ _ rand ka len k1 hlen
  rw [hpol, hminb] at hge
  rw [hpol, hmaxb] at hle
  have hlen_req : len = numRequired p := le_antisymm hle hge
  obtain ⟨s, ks, f, kf, hs, hf, hpw⟩ := candidate_inv g len rand k1 pw k2 hcand
  obtain ⟨s1, s2, s3, s4, hsplit, hslen, h1, h2, h3, h4⟩ :=
    seedRequired_inv g hcs rand k1 s ks hs
  obtain ⟨hflen, -⟩ := fillChars_inv (allChars g) rand _ _ f kf hf
  have hnum : s.length = numRequired p := by rw [hslen, hpol]
  have hfnil : f = [] := by
    apply List.length_eq_zero.mp
    rw [hflen, hnum, hlen_req]
    omega
  have hperm : pw.Perm s := by
    rw [hpw, hfnil, List.append_nil]
    exact shuffleList_perm rand kf s
  have hplen : pw.length = numRequired p := by rw [hperm.length_eq, hnum]
  have hcount : ∀ Y : List Char, List.countP (fun x => List.contains Y x) pw =
      List.countP (fun x => List.contains Y x) s1 +
      List.countP (fun x => List.contains Y x) s2 +
      List.countP (fun x => List.contains Y x) s3 +
      List.countP (fun x => List.contains Y x) s4 := by
    intro Y
    rw [hperm.countP_eq, hsplit]
    simp [List.countP_append]
    omega
  refine ⟨hplen, ?_, ?_, ?_, ?_, ?_⟩
  · intro hr
    rw [hcount ascii_uppercase,
      segOk_countP_self _ _ _ h1 (by rw [hpol]; exact hr),
      segOk_countP_other _ _ _ _ h2 lower_not_in_upper,
      segOk_countP_other _ _ _ _ h3 digits_not_in_upper,
      segOk_countP_other _ _ _ _ h4 special_not_in_upper]
  · intro hr
    rw [hcount ascii_lowercase,
      segOk_countP_self _ _ _ h2 (by rw [hpol]; exact hr),
      segOk_countP_other _ _ _ _ h1 upper_not_in_lower,
      segOk_countP_other _ _ _ _ h3 digits_not_in_lower,
      segOk_countP_other _ _ _ _ h4 special_not_in_lower]
  · intro hr
    rw [hcount ascii_digits,
      segOk_countP_self _ _ _ h3 (by rw [hpol]; exact hr),
      segOk_countP_other _ _ _ _ h1 upper_not_in_digits,
      segOk_countP_other _ _ _ _ h2 lower_not_in_digits,
      segOk_countP_other _ _ _ _ h4 special_not_in_digits]
  · intro hr
    rw [hcount special_chars,
      segOk_countP_self _ _ _ h4 (by rw [hpol]; exact hr),
      segOk_countP_other _ _ _ _ h1 upper_not_in_special,
      segOk_countP_other _ _ _ _ h2 lower_not_in_special,
      segOk_countP_other _ _ _ _ h3 digits_not_in_special]
  · obtain ⟨cpw, ck, hcok⟩ := candidate_ok_boundary g hcs rand0 k0
    rw [hpol] at hcok
    exact ⟨(cpw, ck), hcok⟩

/-- Witness for C8 at a concrete run returning `Aa0!`. -/
theorem C8_boundary_exact_witness :
    boundaryPolicy.min_length = numRequired boundaryPolicy ∧
    ("Aa0!".data.length = numRequired boundaryPolicy ∧
     (boundaryPolicy.require_uppercase = true →
       List.countP (fun x => List.contains ascii_uppercase x) "Aa0!".data = 1) ∧
     (boundaryPolicy.require_lowercase = true →
       List.countP (fun x => List.contains ascii_lowercase x) "Aa0!".data = 1) ∧
     (boundaryPolicy.require_digits = true →
       List.countP (fun x => List.contains ascii_digits x) "Aa0!".data = 1) ∧
     (boundaryPolicy.require_special = true →
       List.countP (fun x => List.contains special_chars x) "Aa0!".data = 1) ∧
     (∃ out, _generate_candidate boundaryGen (numRequired boundaryPolicy)
        zeroRand 0 = .ok out)) :=
  ⟨by decide,
   C8_boundary_exact boundaryPolicy boundaryGen zeroOracle none zeroRand zeroRand 0 1 0
     "Aa0!".data rfl (by decide) (by decide) generate_boundary_run⟩
